import Mathlib

/-!
Verification of the mongodantic query/update/aggregation translation engine.

The Python sources are shallowly embedded: Python dicts become ordered
association lists (insertion order preserved, updating an existing key keeps
its position, as CPython dicts do), Python exceptions become an error type
threaded through `Except`, and each relevant function of
`mongodantic/helpers.py`, `mongodantic/models.py`, `mongodantic/querybuilder.py`
and `mongodantic/aggregation.py` becomes a Lean function of the same name.
String utilities specialised to the fixed separators `__` and `__set` are
implemented by structural recursion on character lists so that concrete
evaluations reduce definitionally.
-/

namespace Mongodantic

/-- BSON-like runtime values: the subset of Python values the engine handles.
`regexCompiled` stands for a `re.compile(...)` result. -/
inductive BVal where
  | str (s : String)
  | int (n : Int)
  | bool (b : Bool)
  | list (xs : List BVal)
  | doc (kvs : List (String × BVal))
  | objectId (s : String)
  | regexCompiled (pat : String)
  | null

/-- Python exceptions raised by the embedded code. -/
inductive PyErr where
  | typeError (msg : String)
  | valueError (msg : String)
  | attributeError (nm : String)
  | nameError (nm : String)
  | keyError (k : String)
  | notDeclaredField (field : String) (declared : List String)
  | validationError
  | invalidArgsParams
  | mongoConnectionError (msg : String)
deriving DecidableEq, Repr

/-- Ordered-dict update: `d[k] = v` in CPython keeps the position of an
existing key and appends a fresh key at the end. -/
def dSet (d : List (String × BVal)) (k : String) (v : BVal) : List (String × BVal) :=
  match d with
  | [] => [(k, v)]
  | (k0, v0) :: rest => if k0 = k then (k, v) :: rest else (k0, v0) :: dSet rest k v

/-- The Python `dict.update(other)`: set every pair of `other` in order. -/
def dUpdate (d other : List (String × BVal)) : List (String × BVal) :=
  other.foldl (fun acc kv => dSet acc kv.1 kv.2) d

/-- Association lookup, the Python `d[k]` read. -/
def dGet (d : List (String × BVal)) (k : String) : Option BVal :=
  match d with
  | [] => none
  | (k0, v0) :: rest => if k0 = k then some v0 else dGet rest k

/-- Python `str(value)` as used by the f-strings in `helpers.py`. -/
def pyStr : BVal → String
  | .str s => s
  | .int n => toString n
  | .bool b => if b then "True" else "False"
  | _ => "<object>"

/-- Python `len(value)`: defined for sequences, a `TypeError` otherwise. -/
def pyLen : BVal → Except PyErr Nat
  | .str s => .ok s.length
  | .list xs => .ok xs.length
  | .doc kvs => .ok kvs.length
  | _ => .error (.typeError "object has no len()")

/-- Python sequence indexing `value[i]` for the shapes `range` can receive. -/
def pyIndex (v : BVal) (i : Nat) : Except PyErr BVal :=
  match v with
  | .list xs =>
    match xs.get? i with
    | some x => .ok x
    | none => .error (.valueError "index out of range")
  | .str s =>
    match s.data.get? i with
    | some c => .ok (.str (String.mk [c]))
    | none => .error (.valueError "index out of range")
  | _ => .error (.typeError "object is not subscriptable")

/-- The `bson.ObjectId(v)` coercion; the 24-hex-digit wellformedness check is
abstracted, only the coercion shape matters to the engine. -/
def toObjectId : BVal → Except PyErr BVal
  | .str s => .ok (.objectId s)
  | .objectId s => .ok (.objectId s)
  | _ => .error (.typeError "id must be an instance of (bytes, str, ObjectId)")

/-- Python `s.split("__")` on the character list, specialised to the fixed
`__` separator of the lookup-key syntax (left-to-right, non-overlapping). -/
def splitDunderChars : List Char → List (List Char)
  | [] => [[]]
  | '_' :: '_' :: rest =>
    [] :: splitDunderChars rest
  | c :: rest =>
    match splitDunderChars rest with
    | [] => [[c]]
    | part :: parts => (c :: part) :: parts

/-- Python `key.split("__")`. -/
def splitDunder (s : String) : List String :=
  (splitDunderChars s.data).map (fun cs => String.mk cs)

/-- Python `"__set" in s` (substring containment). -/
def containsDunderSet : List Char → Bool
  | '_' :: '_' :: 's' :: 'e' :: 't' :: _ => true
  | _ :: rest => containsDunderSet rest
  | [] => false

/-- Python `s.endswith("__set")`. -/
def endsWithDunderSet (s : String) : Bool :=
  match s.data.reverse with
  | 't' :: 'e' :: 's' :: '_' :: '_' :: _ => true
  | _ => false

/-- Python `s.replace("__set", "")` (all occurrences, left-to-right). -/
def removeDunderSet : List Char → List Char
  | '_' :: '_' :: 's' :: 'e' :: 't' :: rest => removeDunderSet rest
  | c :: rest => c :: removeDunderSet rest
  | [] => []

/-- A wire fragment produced by one registry method of
`helpers.ExtraQueryMapper`: a small Python dict. -/
abbrev Frag := List (String × BVal)

namespace ExtraQueryMapper

/-- The `in_` method of `ExtraQueryMapper` (helpers.py line 24). -/
def in_ (list_values : BVal) : Except PyErr Frag :=
  match list_values with
  | .list _ => .ok [("$in", list_values)]
  | _ => .error (.typeError "values must be a list type")

/-- The `regex` method (helpers.py line 29). -/
def regex (regex_value : BVal) : Except PyErr Frag :=
  .ok [("$regex", regex_value)]

/-- The `regex_ne` method (helpers.py line 32); note the bare string key
`not`, without a dollar sign. -/
def regex_ne (regex_value : BVal) : Except PyErr Frag :=
  .ok [("not", .doc [("$regex", regex_value)])]

/-- The `ne` method (helpers.py line 35). -/
def ne (value : BVal) : Except PyErr Frag :=
  .ok [("$ne", value)]

/-- The `startswith` method (helpers.py line 38). -/
def startswith (value : BVal) : Except PyErr Frag :=
  .ok [("$regex", .str ("^" ++ pyStr value))]

/-- The `endswith` method (helpers.py line 41). -/
def endswith (value : BVal) : Except PyErr Frag :=
  .ok [("$regex", .str (pyStr value ++ "$"))]

/-- The `nin` method (helpers.py line 44). -/
def nin (list_values : BVal) : Except PyErr Frag :=
  match list_values with
  | .list _ => .ok [("$nin", list_values)]
  | _ => .error (.typeError "values must be a list type")

/-- The `exists` method (helpers.py line 49); Python allows `exists` as a
method name, Lean reserves it, hence the trailing underscore. The method
performs no check on its argument. -/
def exists_ (boolean_value : BVal) : Except PyErr Frag :=
  .ok [("$exists", boolean_value)]

/-- The `type` method (helpers.py line 52). -/
def type (bson_type : BVal) : Except PyErr Frag :=
  .ok [("$type", bson_type)]

/-- The `gte` method (helpers.py line 55). -/
def gte (value : BVal) : Except PyErr Frag :=
  .ok [("$gte", value)]

/-- The `lte` method (helpers.py line 58). -/
def lte (value : BVal) : Except PyErr Frag :=
  .ok [("$lte", value)]

/-- The `gt` method (helpers.py line 61). -/
def gt (value : BVal) : Except PyErr Frag :=
  .ok [("$gt", value)]

/-- The `lt` method (helpers.py line 64). -/
def lt (value : BVal) : Except PyErr Frag :=
  .ok [("$lt", value)]

/-- The `inc` method (helpers.py line 67). Python `isinstance(value, int)`
also accepts `bool`, a subclass of `int`. -/
def inc (field_name : String) (value : BVal) : Except PyErr Frag :=
  match value with
  | .int _ => .ok [("$inc", .doc [(field_name, value)])]
  | .bool _ => .ok [("$inc", .doc [(field_name, value)])]
  | _ => .error (.valueError "value must be integer")

/-- The `range` method (helpers.py line 72). -/
def range (range_values : BVal) : Except PyErr Frag := do
  let n ← pyLen range_values
  if n ≠ 2 then
    throw (.valueError "range must have 2 params")
  let from_ ← pyIndex range_values 0
  let to_ ← pyIndex range_values 1
  return [("$gte", from_), ("$lte", to_)]

/-- The `getattr(self, extra_method)(values)` dynamic dispatch inside
`extra_query` (helpers.py line 20): a name outside the method table raises
`AttributeError`. -/
def getattrCall (field_name m : String) (values : BVal) : Except PyErr Frag :=
  match m with
  | "in_" => in_ values
  | "regex" => regex values
  | "regex_ne" => regex_ne values
  | "ne" => ne values
  | "startswith" => startswith values
  | "endswith" => endswith values
  | "nin" => nin values
  | "exists" => exists_ values
  | "type" => type values
  | "gte" => gte values
  | "lte" => lte values
  | "gt" => gt values
  | "lt" => lt values
  | "inc" => inc field_name values
  | "range" => range values
  | _ => .error (.attributeError m)

/-- The `[ObjectId(v) for v in values] if isinstance(values, list) else
ObjectId(values)` coercion for the identifier field (helpers.py line 12). -/
def idCoerce (values : BVal) : Except PyErr BVal :=
  match values with
  | .list xs => do
    let ys ← xs.mapM toObjectId
    return .list ys
  | v => toObjectId v

/-- The `for extra_method in extra_methods` loop of `extra_query`
(helpers.py lines 15-20), accumulating `query[self.field_name].update(...)`.
The `inc` branch is `return self.inc(value)` where the name `value` is not
bound in `extra_query` (its parameter is `values`), so reaching it raises
`NameError` before `inc` is ever called. -/
def extraLoop (field_name : String) (ms : List String) (values : BVal)
    (inner : Frag) : Except PyErr Frag :=
  match ms with
  | [] => .ok [(field_name, .doc inner)]
  | m :: rest =>
    let m := if m = "in" then "in_" else m
    if m = "inc" then
      .error (.nameError "value")
    else
      match getattrCall field_name m values with
      | .error e => .error e
      | .ok frag => extraLoop field_name rest values (dUpdate inner frag)

/-- The `extra_query` entry point (helpers.py lines 10-22). -/
def extra_query (field_name : String) (extra_methods : List String)
    (values : BVal) : Except PyErr Frag := do
  let values ← if field_name = "_id" then idCoerce values else pure values
  match extra_methods with
  | [] => return []
  | _ => extraLoop field_name extra_methods values []

end ExtraQueryMapper

/-- Declared kind of a schema attribute. Per section 1 of the specification
the validation library behind field declarations is an external collaborator
consumed as a "validate value against declared type, yield value or error"
capability; these are the kinds the repository tests declare. -/
inductive FType where
  | tStr
  | tInt
  | tBool
  | tDict
  | tList
deriving DecidableEq, Repr

/-- A model's `__fields__` table: declared attribute names and kinds, in
declaration order. -/
abbrev Schema := List (String × FType)

/-- Lookup of a declared field. -/
def schemaLookup (schema : Schema) (f : String) : Option FType :=
  match schema with
  | [] => none
  | (g, t) :: rest => if g = f then some t else schemaLookup rest f

/-- The `field.validate(value, ...)` call of `MongoModel.__validate_value`
(models.py lines 82-88): the external pydantic v1 coercion, modelled on the
coercions the tests rely on (ints printed into string fields, digit strings
and bools read into int fields). -/
def validate_value (t : FType) (v : BVal) : Except PyErr BVal :=
  match t, v with
  | .tStr, .str s => .ok (.str s)
  | .tStr, .int n => .ok (.str (toString n))
  | .tStr, .bool b => .ok (.str (if b then "True" else "False"))
  | .tStr, _ => .error .validationError
  | .tInt, .int n => .ok (.int n)
  | .tInt, .bool b => .ok (.int (if b then 1 else 0))
  | .tInt, .str s =>
    match s.toInt? with
    | some n => .ok (.int n)
    | none => .error .validationError
  | .tInt, _ => .error .validationError
  | .tBool, .bool b => .ok (.bool b)
  | .tBool, _ => .error .validationError
  | .tDict, .doc d => .ok (.doc d)
  | .tDict, _ => .error .validationError
  | .tList, .list xs => .ok (.list xs)
  | .tList, _ => .error .validationError

/-- The `for field, value in query.items()` loop of
`MongoModel._validate_query_data` (models.py lines 66-80), accumulating the
`data` dict. -/
def validateLoop (schema : Schema) (query : List (String × BVal))
    (data : List (String × BVal)) : Except PyErr (List (String × BVal)) :=
  match query with
  | [] => .ok data
  | (key, value) :: rest => do
    let parts := splitDunder key
    let field := parts.headD ""
    let extra_params := parts.tail
    if schemaLookup schema field = none ∧ field ≠ "_id" then
      throw (.notDeclaredField field (schema.map (·.1)))
    let _dict ← ExtraQueryMapper.extra_query field extra_params value
    let value ←
      if _dict.isEmpty then
        if field = "_id" then
          toObjectId value
        else
          match schemaLookup schema field with
          | some t => validate_value t value
          | none => throw (.keyError field)
      else
        match dGet _dict field with
        | some v => pure v
        | none => throw (.keyError field)
    validateLoop schema rest (dSet data field value)

/-- `MongoModel._validate_query_data` (models.py lines 65-80). -/
def _validate_query_data (schema : Schema) (query : List (String × BVal)) :
    Except PyErr (List (String × BVal)) :=
  validateLoop schema query []

/-- Outcome of one attempt of the underlying pymongo collection method call:
a result, one of the five transient errors caught by the retry wrapper
(`NetworkTimeout`, `AutoReconnect`, `ConnectionFailure`, `WriteConcernError`,
`ServerSelectionTimeoutError`, carried as their `str(description)`), or any
other exception. -/
inductive Outcome where
  | success (v : BVal)
  | transient (description : String)
  | failure (e : PyErr)

/-- Observable trace of one `MongoModel.__query` dispatch: its outcome, the
filter document sent on each attempt, how many `_reconnect()` calls happened
and how many times `_validate_query_data` ran. -/
structure DispatchTrace where
  result : Except PyErr BVal
  sentDocs : List (List (String × BVal))
  reconnects : Nat
  validations : Nat

/-- `MongoModel.__query` (models.py lines 96-120); `QueryBuilder.__query`
(querybuilder.py lines 41-86) has the same retry structure. The collection
method and its keyword arguments are abstracted into `attempts`, giving the
outcome of the call on each (1-based) attempt number. Note that
`inner_query_params` is bound to the raw `query_params` argument before
validation, and the recursive retry call passes it back through the same
validation path. -/
def mongoQuery (schema : Schema) (attempts : Nat → Outcome)
    (query_params : List (String × BVal)) (logical : Bool) (counter : Nat) :
    DispatchTrace :=
  let inner_query_params := query_params
  let validated : Except PyErr (List (String × BVal)) × Nat :=
    if logical then (.ok query_params, 0)
    else (_validate_query_data schema query_params, 1)
  match validated.1 with
  | .error e =>
    { result := .error e, sentDocs := [], reconnects := 0,
      validations := validated.2 }
  | .ok qdoc =>
    match attempts counter with
    | .success v =>
      { result := .ok v, sentDocs := [qdoc], reconnects := 0,
        validations := validated.2 }
    | .failure e =>
      { result := .error e, sentDocs := [qdoc], reconnects := 0,
        validations := validated.2 }
    | .transient description =>
      if h : counter ≥ 5 then
        { result := .error (.mongoConnectionError description),
          sentDocs := [qdoc], reconnects := 1, validations := validated.2 }
      else
        let rest := mongoQuery schema attempts inner_query_params logical
          (counter + 1)
        { result := rest.result, sentDocs := qdoc :: rest.sentDocs,
          reconnects := 1 + rest.reconnects,
          validations := validated.2 + rest.validations }
termination_by 5 - counter
decreasing_by omega

/-- The `for name, value in fields.items()` loop of
`MongoModel._ensure_update_data` (models.py lines 242-252): a key splitting
into exactly two `__`-separated parts goes to `set_values` when the second
part is `set` and is otherwise skipped; every other key goes to `queries`. -/
def ensureUpdateLoop (schema : Schema) (fields : List (String × BVal))
    (queries set_values : List (String × BVal)) :
    Except PyErr (List (String × BVal) × List (String × BVal)) :=
  match fields with
  | [] => .ok (queries, set_values)
  | (nm, value) :: rest =>
    let extra_fields := splitDunder nm
    if extra_fields.length = 2 then
      if extra_fields.getD 1 "" = "set" then do
        let _dict ← _validate_query_data schema [(extra_fields.headD "", value)]
        ensureUpdateLoop schema rest queries (dUpdate set_values _dict)
      else
        ensureUpdateLoop schema rest queries set_values
    else do
      let _dict ← _validate_query_data schema [(nm, value)]
      ensureUpdateLoop schema rest (dUpdate queries _dict) set_values

/-- `MongoModel._ensure_update_data` (models.py lines 238-253). The guard is
the Python substring test `"__set" in f`; its failure raises
`AttributeError("not fields for updating!")`. -/
def _ensure_update_data (schema : Schema) (fields : List (String × BVal)) :
    Except PyErr (List (String × BVal) × List (String × BVal)) :=
  if fields.any (fun p => containsDunderSet p.1.data) then
    ensureUpdateLoop schema fields [] []
  else
    .error (.attributeError "not fields for updating!")

/-- The loop of `QueryBuilder._ensure_update_data` (querybuilder.py lines
260-268): keys ending in `__set` are stripped with `name.replace("__set", "")`
and validated into `set_values`; every other key is validated into
`queries`. -/
def qbEnsureUpdateLoop (schema : Schema) (fields : List (String × BVal))
    (queries set_values : List (String × BVal)) :
    Except PyErr (List (String × BVal) × List (String × BVal)) :=
  match fields with
  | [] => .ok (queries, set_values)
  | (nm, value) :: rest =>
    if endsWithDunderSet nm then do
      let nm := String.mk (removeDunderSet nm.data)
      let data ← _validate_query_data schema [(nm, value)]
      qbEnsureUpdateLoop schema rest queries (dUpdate set_values data)
    else do
      let data ← _validate_query_data schema [(nm, value)]
      qbEnsureUpdateLoop schema rest (dUpdate queries data) set_values

/-- `QueryBuilder._ensure_update_data` (querybuilder.py lines 256-269); here
the empty-guard failure raises `ValueError("not fields for updating!")`. -/
def qb_ensure_update_data (schema : Schema) (fields : List (String × BVal)) :
    Except PyErr (List (String × BVal) × List (String × BVal)) :=
  if fields.any (fun p => containsDunderSet p.1.data) then
    qbEnsureUpdateLoop schema fields [] []
  else
    .error (.valueError "not fields for updating!")

/-- One join description, the `Lookup` class of aggregation.py (lines
97-112). The referenced model is carried as its collection name plus its
declared field names, which is all `to_query` and `_validate_local_field`
read from it. -/
structure Lookup where
  from_collection : String
  from_fields : List String
  local_field : String
  foreign_field : String
  as_ : String
  with_unwind : Bool
  preserve_null_and_empty_arrays : Bool
deriving DecidableEq, Repr

/-- `Lookup._validate_local_field` (aggregation.py lines 136-145). -/
def Lookup.validate_local_field (main_fields : List String) (l : Lookup) :
    Except PyErr String :=
  if l.local_field ∉ l.from_fields ++ main_fields ∧ l.local_field ≠ "_id" then
    .error (.attributeError "invalid local_field")
  else
    .ok l.local_field

/-- `Lookup.to_query` (aggregation.py lines 114-134): one `$lookup` stage,
plus an `$unwind` stage when requested. -/
def Lookup.to_query (main_fields : List String) (l : Lookup) :
    Except PyErr (List BVal) := do
  let lf ← l.validate_local_field main_fields
  let stage := BVal.doc [("$lookup", .doc
    [("localField", .str lf),
     ("from", .str l.from_collection),
     ("foreignField", .str l.foreign_field),
     ("as", .str l.as_)])]
  if l.with_unwind then
    return [stage, .doc [("$unwind", .doc
      [("path", .str ("$" ++ l.as_)),
       ("preserveNullAndEmptyArrays", .bool l.preserve_null_and_empty_arrays)])]]
  else
    return [stage]

/-- An argument node of `LookupCombination.__init__`: either a `Lookup` or an
already-built `LookupCombination` (whose children, by construction, are
`Lookup` objects). -/
inductive LookupNode where
  | spec (l : Lookup)
  | combination (children : List Lookup)
deriving DecidableEq, Repr

/-- One iteration of the `for node in lookup` loop of
`LookupCombination.__init__` (aggregation.py lines 72-78): a node already in
`self.children` is skipped (the membership test can only match a `Lookup`
node, a combination never equals one), a combination is flattened by
extending `self.children` with its children without any membership test, and
any other node is appended. -/
def lookupCombinationStep (children : List Lookup) (node : LookupNode) :
    List Lookup :=
  match node with
  | .spec l => if l ∈ children then children else children ++ [l]
  | .combination cs => children ++ cs

/-- `LookupCombination.__init__` (aggregation.py lines 70-78): the children
list built from the argument nodes. -/
def lookupCombination (nodes : List LookupNode) : List Lookup :=
  nodes.foldl lookupCombinationStep []

/-- Modelled from the spec: `helpers.generate_lookup_project_params` is
imported by aggregation.py and querybuilder.py but absent from the sources.
Per section 4.6 the derived project stage includes every top-level field of
the primary schema plus the join alias of each referenced collection. -/
def generate_lookup_project_params (main_fields aliases : List String) : BVal :=
  .doc ((main_fields ++ aliases).map (fun f => (f, .int 1)))

/-- First-occurrence key order of the `reference_models` dict built by
`LookupCombination.accept` (keyed by each node's alias). -/
def dedupStr (xs : List String) : List String :=
  xs.foldl (fun acc s => if s ∈ acc then acc else acc ++ [s]) []

/-- `LookupCombination.accept` (aggregation.py lines 83-94): the `$lookup`
(and `$unwind`) stages of every child in order, then one `$project` stage. -/
def lookupAccept (main_fields : List String) (children : List Lookup) :
    Except PyErr (List BVal) := do
  let stages ← children.foldlM
    (fun acc node => do
      let qs ← node.to_query main_fields
      return acc ++ qs)
    ([] : List BVal)
  let aliases := dedupStr (children.map (·.as_))
  return stages ++
    [.doc [("$project", generate_lookup_project_params main_fields aliases)]]

/-- Number of `$lookup` stages in a pipeline. -/
def countLookupStages (stages : List BVal) : Nat :=
  stages.countP (fun st =>
    match st with
    | .doc (("$lookup", _) :: _) => true
    | _ => false)

mutual

/-- Structural value equality, the Python `==` on the embedded values; used
by the duplicate test of the boolean query algebra. -/
def BVal.beq : BVal → BVal → Bool
  | .str a, .str b => a == b
  | .int a, .int b => a == b
  | .bool a, .bool b => a == b
  | .list xs, .list ys => BVal.listBeq xs ys
  | .doc xs, .doc ys => BVal.dictBeq xs ys
  | .objectId a, .objectId b => a == b
  | .regexCompiled a, .regexCompiled b => a == b
  | .null, .null => true
  | _, _ => false

/-- Elementwise `BVal.beq` on lists. -/
def BVal.listBeq : List BVal → List BVal → Bool
  | [], [] => true
  | x :: xs, y :: ys => BVal.beq x y && BVal.listBeq xs ys
  | _, _ => false

/-- Pairwise `BVal.beq` on ordered dicts. -/
def BVal.dictBeq : List (String × BVal) → List (String × BVal) → Bool
  | [], [] => true
  | (k, v) :: xs, (l, w) :: ys => k == l && BVal.beq v w && BVal.dictBeq xs ys
  | _, _ => false

end

/-- The two boolean combinators of the query algebra. -/
inductive LOp where
  | and
  | or
deriving DecidableEq, Repr

/-- Wire symbol of a combinator. -/
def LOp.symbol : LOp → String
  | .and => "$and"
  | .or => "$or"

/-- Modelled from the spec: `mongodantic/logical.py` (the `Query` and
`LogicalCombination` classes) is imported by models.py, querybuilder.py and
tests/test_logical.py but absent from the sources. Per section 4.4 a node is
either a leaf (a mapping of scalar lookup keys to values) or a combinator
(an AND or OR over an ordered child list). -/
inductive QNode where
  | leaf (filters : List (String × BVal))
  | comb (op : LOp) (children : List QNode)

mutual

/-- Python `==` on query nodes, the duplicate test of composition. -/
def QNode.beq : QNode → QNode → Bool
  | .leaf a, .leaf b => BVal.dictBeq a b
  | .comb o1 c1, .comb o2 c2 => o1 == o2 && QNode.childrenBeq c1 c2
  | _, _ => false

/-- Elementwise `QNode.beq` on child lists. -/
def QNode.childrenBeq : List QNode → List QNode → Bool
  | [], [] => true
  | x :: xs, y :: ys => QNode.beq x y && QNode.childrenBeq xs ys
  | _, _ => false

end

/-- Modelled from the spec: the composition step of the absent logical.py.
Per sections 3 and 4.4 a combinator of the same operator contributes its
child list (same-operator chains flatten) and any other node contributes
itself. -/
def QNode.flattenFor (op : LOp) : QNode → List QNode
  | .comb o cs => if o = op then cs else [.comb o cs]
  | n => [n]

/-- Modelled from the spec: the duplicates-by-value removal of the absent
logical.py composition step (section 3: "combining with a node of the same
operator flattens children into one list", "duplicates by value removed"),
keeping the first occurrence of each value. -/
def dedupNodes (nodes : List QNode) : List QNode :=
  nodes.foldl
    (fun acc n => if acc.any (fun m => QNode.beq m n) then acc else acc ++ [n])
    []

/-- Modelled from the spec: binary composition of the absent logical.py
(the operator overloads building `LogicalCombination`), flattening
same-operator chains and removing duplicates by value, as required by the
flat three-child expectation of sections 4.4 and 8 and of
tests/test_logical.py. -/
def QNode.combine (op : LOp) (l r : QNode) : QNode :=
  .comb op (dedupNodes (l.flattenFor op ++ r.flattenFor op))

mutual

/-- Modelled from the spec: `to_query` of the absent logical.py, per section
4.4. A leaf compiles through the scalar pipeline
(`MongoModel._validate_query_data`); a combinator compiles to its wire symbol
over the compiled children. -/
def QNode.to_query (schema : Schema) : QNode → Except PyErr BVal
  | .leaf filters =>
    match _validate_query_data schema filters with
    | .error e => .error e
    | .ok d => .ok (.doc d)
  | .comb op children =>
    match QNode.childrenToQuery schema children with
    | .error e => .error e
    | .ok cs => .ok (.doc [(op.symbol, .list cs)])

/-- Compilation of a combinator's children in order. -/
def QNode.childrenToQuery (schema : Schema) :
    List QNode → Except PyErr (List BVal)
  | [] => .ok []
  | n :: rest =>
    match QNode.to_query schema n with
    | .error e => .error e
    | .ok d =>
      match QNode.childrenToQuery schema rest with
      | .error e => .error e
      | .ok ds => .ok (d :: ds)

end

/-- The `Ticket` model declared by tests/test_logical.py and
tests/queries/test_queries_with_inners.py: a string `name`, an integer
`position` and a dict `config`. -/
def ticketSchema : Schema :=
  [("name", .tStr), ("position", .tInt), ("config", .tDict)]

/-- The join of tests/queries/test_aggregation.py: `ProductImage` looked up
from `Product` by `_id = product_id`. -/
def productImageLookup : Lookup :=
  { from_collection := "productimage"
    from_fields := ["url", "product_id"]
    local_field := "_id"
    foreign_field := "product_id"
    as_ := "productimage"
    with_unwind := false
    preserve_null_and_empty_arrays := false }

/-- C1: the operator registry matches the documented wire-fragment table for
`in`, `nin`, `ne`, `gte`, `lte`, `gt`, `lt`, `regex`, `startswith`,
`endswith`, `exists`, `type` and `range`, but diverges on the negated-regex
family: `regex_ne` produces `{"not": {"$regex": v}}` (a bare `not` key
wrapping an uncompiled pattern) instead of the documented
`{"$not": compiledPattern}`, and `not_startswith` / `not_endswith` are not in
the method table at all, raising `AttributeError`, against
tests/test_helpers.py lines 47-74. -/
theorem extra_query_operator_table :
    ExtraQueryMapper.extra_query "f" ["in"] (.list [.int 1, .int 3])
      = .ok [("f", .doc [("$in", .list [.int 1, .int 3])])]
    ∧ ExtraQueryMapper.extra_query "f" ["nin"] (.list [.int 1, .int 3])
      = .ok [("f", .doc [("$nin", .list [.int 1, .int 3])])]
    ∧ ExtraQueryMapper.extra_query "f" ["ne"] (.str "test")
      = .ok [("f", .doc [("$ne", .str "test")])]
    ∧ ExtraQueryMapper.extra_query "f" ["gte"] (.int 2)
      = .ok [("f", .doc [("$gte", .int 2)])]
    ∧ ExtraQueryMapper.extra_query "f" ["lte"] (.int 2)
      = .ok [("f", .doc [("$lte", .int 2)])]
    ∧ ExtraQueryMapper.extra_query "f" ["gt"] (.int 2)
      = .ok [("f", .doc [("$gt", .int 2)])]
    ∧ ExtraQueryMapper.extra_query "f" ["lt"] (.int 2)
      = .ok [("f", .doc [("$lt", .int 2)])]
    ∧ ExtraQueryMapper.extra_query "f" ["regex"] (.str "test")
      = .ok [("f", .doc [("$regex", .str "test")])]
    ∧ ExtraQueryMapper.extra_query "f" ["startswith"] (.str "test")
      = .ok [("f", .doc [("$regex", .str "^test")])]
    ∧ ExtraQueryMapper.extra_query "f" ["endswith"] (.str "test")
      = .ok [("f", .doc [("$regex", .str "test$")])]
    ∧ ExtraQueryMapper.extra_query "f" ["exists"] (.bool false)
      = .ok [("f", .doc [("$exists", .bool false)])]
    ∧ ExtraQueryMapper.extra_query "f" ["type"] (.str "string")
      = .ok [("f", .doc [("$type", .str "string")])]
    ∧ ExtraQueryMapper.extra_query "f" ["range"] (.list [.int 1, .int 9])
      = .ok [("f", .doc [("$gte", .int 1), ("$lte", .int 9)])]
    ∧ ExtraQueryMapper.extra_query "f" ["regex_ne"] (.str "test")
      = .ok [("f", .doc [("not", .doc [("$regex", .str "test")])])]
    ∧ ExtraQueryMapper.extra_query "f" ["not_startswith"] (.str "test")
      = .error (.attributeError "not_startswith")
    ∧ ExtraQueryMapper.extra_query "f" ["not_endswith"] (.str "test")
      = .error (.attributeError "not_endswith") :=
  ⟨rfl, rfl, rfl, rfl, rfl, rfl, rfl, rfl, rfl, rfl, rfl, rfl, rfl, rfl,
    rfl, rfl⟩

/-- C4: malformed `in` / `nin` / `range` values fail with the matching error
kind, but the two remaining cases diverge: `inc` fails with `NameError`
(the `extra_query` branch evaluates the unbound name `value`) instead of the
`ValueError` asserted by tests/test_helpers.py lines 98-100, and `exists`
does not fail at all on a non-boolean, returning a wire fragment against
tests/test_helpers.py lines 105-107. -/
theorem malformed_operator_values :
    ExtraQueryMapper.extra_query "name" ["in"] (.str "x")
      = .error (.typeError "values must be a list type")
    ∧ ExtraQueryMapper.extra_query "name" ["nin"] (.int 5)
      = .error (.typeError "values must be a list type")
    ∧ ExtraQueryMapper.extra_query "date" ["range"] (.list [.str "a"])
      = .error (.valueError "range must have 2 params")
    ∧ ExtraQueryMapper.extra_query "date" ["range"]
        (.list [.str "a", .str "b", .str "c"])
      = .error (.valueError "range must have 2 params")
    ∧ ExtraQueryMapper.extra_query "counter" ["inc"] (.str "2313123131")
      = .error (.nameError "value")
    ∧ ExtraQueryMapper.extra_query "counter" ["exists"] (.str "2313123131")
      = .ok [("counter", .doc [("$exists", .str "2313123131")])] :=
  ⟨rfl, rfl, rfl, rfl, rfl, rfl⟩

/-- C5: dispatching the `inc` operator through the registry entry point
raises `NameError` for every value, because `extra_query` returns
`self.inc(value)` while its parameter is named `values`; the `inc` method
itself, which the entry point never reaches, does produce the documented
top-level mutation fragment expected by tests/test_helpers.py lines 98-103. -/
theorem inc_entry_point_name_error :
    ExtraQueryMapper.extra_query "counter" ["inc"] (.int 23)
      = .error (.nameError "value")
    ∧ ExtraQueryMapper.inc "counter" (.int 23)
      = .ok [("$inc", .doc [("counter", .int 23)])] :=
  ⟨rfl, rfl⟩

/-- C7: a query key with nested-path tokens (here the
`config__url__startswith` key of tests/queries/test_queries_with_inners.py)
does not compile to the dotted field key `config.url`; the path token `url`
is dispatched as an operator method name by `extra_query` and raises
`AttributeError`. -/
theorem nested_path_attribute_error :
    _validate_query_data ticketSchema [("config__url__startswith", .str "goo")]
      = .error (.attributeError "url") :=
  rfl

/-- C3: for any validated query, a dispatch whose driver call raises a
transient error on the first 4 attempts and succeeds on the 5th returns the
successful result (reconnecting after each of the 4 failures); transient
errors on 5 consecutive attempts raise `MongoConnectionError` wrapping the
last description, after 5 reconnects; any other exception propagates
immediately, with no reconnect and a single attempt. -/
theorem retry_dispatch_classification (schema : Schema)
    (q qdoc : List (String × BVal))
    (hval : _validate_query_data schema q = .ok qdoc)
    (d : Nat → String) (v : BVal) (e : PyErr) :
    ((mongoQuery schema (fun i => if i ≤ 4 then .transient (d i) else .success v)
        q false 1).result = .ok v
      ∧ (mongoQuery schema (fun i => if i ≤ 4 then .transient (d i) else .success v)
          q false 1).reconnects = 4)
    ∧ ((mongoQuery schema (fun i => .transient (d i)) q false 1).result
        = .error (.mongoConnectionError (d 5))
      ∧ (mongoQuery schema (fun i => .transient (d i)) q false 1).reconnects = 5)
    ∧ ((mongoQuery schema (fun _ => .failure e) q false 1).result = .error e
      ∧ (mongoQuery schema (fun _ => .failure e) q false 1).reconnects = 0
      ∧ (mongoQuery schema (fun _ => .failure e) q false 1).sentDocs = [qdoc]) := by
  refine ⟨⟨?_, ?_⟩, ⟨?_, ?_⟩, ?_, ?_, ?_⟩ <;> simp [mongoQuery, hval]

/-- Closed instance of `retry_dispatch_classification`. -/
theorem retry_dispatch_classification_witness :
    ((mongoQuery ticketSchema
        (fun i => if i ≤ 4 then .transient "timeout" else .success .null)
        [("name", .str "a")] false 1).result = .ok .null
      ∧ (mongoQuery ticketSchema
          (fun i => if i ≤ 4 then .transient "timeout" else .success .null)
          [("name", .str "a")] false 1).reconnects = 4)
    ∧ ((mongoQuery ticketSchema (fun _ => .transient "timeout")
        [("name", .str "a")] false 1).result
        = .error (.mongoConnectionError "timeout")
      ∧ (mongoQuery ticketSchema (fun _ => .transient "timeout")
          [("name", .str "a")] false 1).reconnects = 5)
    ∧ ((mongoQuery ticketSchema (fun _ => .failure .invalidArgsParams)
        [("name", .str "a")] false 1).result = .error .invalidArgsParams
      ∧ (mongoQuery ticketSchema (fun _ => .failure .invalidArgsParams)
          [("name", .str "a")] false 1).reconnects = 0
      ∧ (mongoQuery ticketSchema (fun _ => .failure .invalidArgsParams)
          [("name", .str "a")] false 1).sentDocs = [[("name", .str "a")]]) :=
  retry_dispatch_classification ticketSchema [("name", .str "a")]
    [("name", .str "a")] rfl (fun _ => "timeout") .null .invalidArgsParams

/-- C6 counterexample: with the `Ticket` schema, the filter
`{"name": 123}` and a driver call that is transient on attempt 1 and
succeeds on attempt 2, the dispatch runs `_validate_query_data` twice, once
per attempt, not once; the retried attempt re-parses the raw parameters. -/
theorem retry_revalidates_counterexample :
    (mongoQuery ticketSchema
      (fun i => if i = 1 then .transient "timeout" else .success .null)
      [("name", .int 123)] false 1).validations = 2
    ∧ (mongoQuery ticketSchema
        (fun i => if i = 1 then .transient "timeout" else .success .null)
        [("name", .int 123)] false 1).validations ≠ 1 := by
  refine ⟨?_, ?_⟩
  · simp [mongoQuery]
    rfl
  · simp [mongoQuery]
    decide

/-- C6 amended: on a transient-failure retry the dispatch re-issues the
original raw query parameters and runs the parser/coercion pipeline
(`_validate_query_data`) again on the retried attempt; because the pipeline
is deterministic, the filter document sent on attempt 2 is identical to the
one sent on attempt 1. -/
theorem retry_reissues_raw_params_revalidated (schema : Schema)
    (q qdoc : List (String × BVal))
    (hval : _validate_query_data schema q = .ok qdoc)
    (d : String) (v : BVal) :
    (mongoQuery schema (fun i => if i = 1 then .transient d else .success v)
      q false 1).sentDocs = [qdoc, qdoc]
    ∧ (mongoQuery schema (fun i => if i = 1 then .transient d else .success v)
        q false 1).validations = 2
    ∧ (mongoQuery schema (fun i => if i = 1 then .transient d else .success v)
        q false 1).result = .ok v := by
  refine ⟨?_, ?_, ?_⟩ <;> simp [mongoQuery, hval]

/-- Closed instance of `retry_reissues_raw_params_revalidated`. -/
theorem retry_reissues_raw_params_revalidated_witness :
    (mongoQuery ticketSchema
      (fun i => if i = 1 then .transient "timeout" else .success .null)
      [("name", .int 123)] false 1).sentDocs
      = [[("name", .str "123")], [("name", .str "123")]]
    ∧ (mongoQuery ticketSchema
        (fun i => if i = 1 then .transient "timeout" else .success .null)
        [("name", .int 123)] false 1).validations = 2
    ∧ (mongoQuery ticketSchema
        (fun i => if i = 1 then .transient "timeout" else .success .null)
        [("name", .int 123)] false 1).result = .ok .null :=
  retry_reissues_raw_params_revalidated ticketSchema [("name", .int 123)]
    [("name", .str "123")] rfl "timeout" .null

/-- C8 counterexample: in `MongoModel._ensure_update_data`, a call whose only
key is `name__setx` carries no `__set`-suffixed key yet raises nothing (the
guard is a substring test), returning empty filter and payload; and in a call
with a `config__set` key, the remaining key `position__ne` does not reach the
match filter: it is dropped from both outputs. -/
theorem ensure_update_data_counterexample :
    _ensure_update_data ticketSchema [("name__setx", .str "v")] = .ok ([], [])
    ∧ _ensure_update_data ticketSchema
        [("config__set", .doc []), ("position__ne", .int 1)]
      = .ok ([], [("config", .doc [])]) :=
  ⟨rfl, rfl⟩

/-- C8 amended: an update call raises the no-fields-to-update error exactly
when no key contains the substring `__set`; when a `__set` key is present,
the `__set` keys are validated into the `$set` payload in both
implementations, and the remaining keys form the match filter in
`QueryBuilder._ensure_update_data`, while `MongoModel._ensure_update_data`
keeps only unmodified keys in the filter and silently discards keys carrying
a single non-`set` modifier such as `position__ne`. -/
theorem ensure_update_data_separation (s : String)
    (d : List (String × BVal)) (v3 : BVal) :
    _ensure_update_data ticketSchema
        [("name", .str s), ("config__set", .doc d), ("position__ne", v3)]
      = .ok ([("name", .str s)], [("config", .doc d)])
    ∧ qb_ensure_update_data ticketSchema
        [("name", .str s), ("config__set", .doc d), ("position__ne", v3)]
      = .ok ([("name", .str s), ("position", .doc [("$ne", v3)])],
          [("config", .doc d)])
    ∧ _ensure_update_data ticketSchema [("name", .str s)]
      = .error (.attributeError "not fields for updating!")
    ∧ qb_ensure_update_data ticketSchema [("name", .str s)]
      = .error (.valueError "not fields for updating!") :=
  ⟨rfl, rfl, rfl, rfl⟩

/-- Closed instance of `ensure_update_data_separation`. -/
theorem ensure_update_data_separation_witness :
    _ensure_update_data ticketSchema
        [("name", .str "first"), ("config__set", .doc [("u", .int 1)]),
          ("position__ne", .int 2)]
      = .ok ([("name", .str "first")], [("config", .doc [("u", .int 1)])])
    ∧ qb_ensure_update_data ticketSchema
        [("name", .str "first"), ("config__set", .doc [("u", .int 1)]),
          ("position__ne", .int 2)]
      = .ok ([("name", .str "first"), ("position", .doc [("$ne", .int 2)])],
          [("config", .doc [("u", .int 1)])])
    ∧ _ensure_update_data ticketSchema [("name", .str "first")]
      = .error (.attributeError "not fields for updating!")
    ∧ qb_ensure_update_data ticketSchema [("name", .str "first")]
      = .error (.valueError "not fields for updating!") :=
  ensure_update_data_separation "first" [("u", .int 1)] (.int 2)

/-- C10: in `MongoModel._ensure_update_data` every key carrying exactly one
`__`-separated modifier other than `set` is silently discarded: with a
`name__set` key present, the key `position__<m>` (for any modifier `m` that
is not `set` and contains no `__`) contributes to neither the returned match
filter nor the returned `$set` payload, and no error is raised for it. -/
theorem update_modifier_keys_discarded (m : String) (s : String) (v : BVal)
    (hm : m ≠ "set")
    (hsplit : splitDunder ("position__" ++ m) = ["position", m]) :
    _ensure_update_data ticketSchema
        [("name__set", .str s), ("position__" ++ m, v)]
      = .ok ([], [("name", .str s)]) := by
  have hgate : _ensure_update_data ticketSchema
      [("name__set", .str s), ("position__" ++ m, v)]
      = ensureUpdateLoop ticketSchema
        [("name__set", .str s), ("position__" ++ m, v)] [] [] := rfl
  have hstep : ensureUpdateLoop ticketSchema
      [("name__set", .str s), ("position__" ++ m, v)] [] []
      = ensureUpdateLoop ticketSchema [("position__" ++ m, v)] []
        [("name", .str s)] := rfl
  rw [hgate, hstep]
  simp only [ensureUpdateLoop, hsplit]
  simp [hm]

/-- Closed instance of `update_modifier_keys_discarded`. -/
theorem update_modifier_keys_discarded_witness :
    _ensure_update_data ticketSchema
        [("name__set", .str "first"), ("position__ne", .int 1)]
      = .ok ([], [("name", .str "first")]) :=
  update_modifier_keys_discarded "ne" "first" (.int 1)
    (by decide) rfl

/-- Folding direct `Lookup` nodes through the `LookupCombination.__init__`
loop never produces duplicates, from any duplicate-free accumulator. -/
theorem lookupCombination_foldl_spec_nodup (ls : List Lookup) :
    ∀ acc : List Lookup, acc.Nodup →
      (List.foldl lookupCombinationStep acc (ls.map .spec)).Nodup := by
  induction ls with
  | nil =>
    intro acc h
    simpa using h
  | cons l rest ih =>
    intro acc h
    simp only [List.map_cons, List.foldl_cons, lookupCombinationStep]
    by_cases hmem : l ∈ acc
    · simpa [hmem] using ih acc h
    · rw [if_neg hmem]
      refine ih (acc ++ [l]) ?_
      simp [List.nodup_append, h, hmem]

/-- C9 counterexample: composing a combination does not de-duplicate through
nesting: `LookupCombination([L, LookupCombination([L])])` extends the
children with the nested combination's children without a membership test,
so `L` appears twice and the pipeline contains two `$lookup` stages for it. -/
theorem lookup_combination_nested_duplicate :
    lookupCombination
        [.spec productImageLookup, .combination [productImageLookup]]
      = [productImageLookup, productImageLookup]
    ∧ (lookupAccept ["title", "cost"]
        (lookupCombination
          [.spec productImageLookup, .combination [productImageLookup]])).map
          countLookupStages
      = .ok 2 :=
  ⟨rfl, rfl⟩

/-- C9 amended: combining a `LookupSpec` with itself
(`LookupCombination([L, L])`, the list `L AND L` builds) yields a children
list containing `L` exactly once, so the aggregation pipeline contains a
single `$lookup` stage for it, and more generally composing directly given
`Lookup` nodes drops duplicates; but flattening a nested
`LookupCombination` concatenates its children without de-duplication, so
duplicates can survive through nesting. -/
theorem lookup_combination_dedup (L : Lookup) (mf : List String) (lf : String)
    (hv : L.validate_local_field mf = .ok lf) :
    lookupCombination [.spec L, .spec L] = [L]
    ∧ (lookupAccept mf (lookupCombination [.spec L, .spec L])).map
        countLookupStages = .ok 1
    ∧ ∀ ls : List Lookup, (lookupCombination (ls.map .spec)).Nodup := by
  have h1 : lookupCombination [.spec L, .spec L] = [L] := by
    simp [lookupCombination, lookupCombinationStep]
  refine ⟨h1, ?_, ?_⟩
  · rw [h1]
    cases hw : L.with_unwind <;>
      simp [lookupAccept, Lookup.to_query, hv, hw, countLookupStages,
        dedupStr, generate_lookup_project_params, List.countP, List.countP.go,
        Except.map]
  · intro ls
    exact lookupCombination_foldl_spec_nodup ls [] (by simp)

/-- Closed instance of `lookup_combination_dedup`. -/
theorem lookup_combination_dedup_witness :
    lookupCombination [.spec productImageLookup, .spec productImageLookup]
      = [productImageLookup]
    ∧ (lookupAccept ["title", "cost"]
        (lookupCombination
          [.spec productImageLookup, .spec productImageLookup])).map
          countLookupStages = .ok 1
    ∧ ∀ ls : List Lookup, (lookupCombination (ls.map .spec)).Nodup :=
  lookup_combination_dedup productImageLookup ["title", "cost"] "_id" rfl

/-- C2 counterexample: for the leaves `A = {"name": "x"}`, `B =
{"position": 1}` and `C = A`, the chain `(A OR B) OR C` compiles to an `$or`
with two compiled children, not three: duplicate removal by value collapses
the repeated leaf. -/
theorem or_chain_duplicate_two_children :
    QNode.combine .or
        (QNode.combine .or (.leaf [("name", .str "x")])
          (.leaf [("position", .int 1)]))
        (.leaf [("name", .str "x")])
      = .comb .or [.leaf [("name", .str "x")], .leaf [("position", .int 1)]]
    ∧ (QNode.combine .or
        (QNode.combine .or (.leaf [("name", .str "x")])
          (.leaf [("position", .int 1)]))
        (.leaf [("name", .str "x")])).to_query ticketSchema
      = .ok (.doc [("$or",
          .list [.doc [("name", .str "x")], .doc [("position", .int 1)]])]) := by
  have h1 : QNode.combine .or
      (QNode.combine .or (.leaf [("name", .str "x")])
        (.leaf [("position", .int 1)]))
      (.leaf [("name", .str "x")])
      = .comb .or [.leaf [("name", .str "x")], .leaf [("position", .int 1)]] := by
    simp [QNode.combine, QNode.flattenFor, dedupNodes, QNode.beq,
      BVal.dictBeq, BVal.beq]
  have hA : _validate_query_data ticketSchema [("name", .str "x")]
      = .ok [("name", .str "x")] := rfl
  have hB : _validate_query_data ticketSchema [("position", .int 1)]
      = .ok [("position", .int 1)] := rfl
  refine ⟨h1, ?_⟩
  rw [h1]
  simp [QNode.to_query, QNode.childrenToQuery, hA, hB, LOp.symbol]

/-- C2 amended: for leaves `A`, `B`, `C` that are pairwise distinct by
value, `(A OR B) OR C` and `A OR (B OR C)` both build the same flat
three-child combinator, which compiles to a single `$or` over the three
compiled children; with duplicated leaves the duplicate is removed instead
(see the counterexample), associativity itself still holding. -/
theorem or_chain_flattening_assoc (schema : Schema)
    (A B C dA dB dC : List (String × BVal))
    (hAB : QNode.beq (.leaf A) (.leaf B) = false)
    (hAC : QNode.beq (.leaf A) (.leaf C) = false)
    (hBC : QNode.beq (.leaf B) (.leaf C) = false)
    (hA : _validate_query_data schema A = .ok dA)
    (hB : _validate_query_data schema B = .ok dB)
    (hC : _validate_query_data schema C = .ok dC) :
    QNode.combine .or (QNode.combine .or (.leaf A) (.leaf B)) (.leaf C)
      = .comb .or [.leaf A, .leaf B, .leaf C]
    ∧ QNode.combine .or (.leaf A) (QNode.combine .or (.leaf B) (.leaf C))
      = .comb .or [.leaf A, .leaf B, .leaf C]
    ∧ (QNode.comb .or [.leaf A, .leaf B, .leaf C]).to_query schema
      = .ok (.doc [("$or", .list [.doc dA, .doc dB, .doc dC])]) := by
  refine ⟨?_, ?_, ?_⟩
  · simp [QNode.combine, QNode.flattenFor, dedupNodes, hAB, hAC, hBC]
  · simp [QNode.combine, QNode.flattenFor, dedupNodes, hAB, hAC, hBC]
  · simp [QNode.to_query, QNode.childrenToQuery, hA, hB, hC, LOp.symbol]

/-- Closed instance of `or_chain_flattening_assoc`. -/
theorem or_chain_flattening_assoc_witness :
    QNode.combine .or
        (QNode.combine .or (.leaf [("name", .str "1")])
          (.leaf [("name", .str "2")]))
        (.leaf [("position", .int 3)])
      = .comb .or [.leaf [("name", .str "1")], .leaf [("name", .str "2")],
          .leaf [("position", .int 3)]]
    ∧ QNode.combine .or (.leaf [("name", .str "1")])
        (QNode.combine .or (.leaf [("name", .str "2")])
          (.leaf [("position", .int 3)]))
      = .comb .or [.leaf [("name", .str "1")], .leaf [("name", .str "2")],
          .leaf [("position", .int 3)]]
    ∧ (QNode.comb .or [.leaf [("name", .str "1")], .leaf [("name", .str "2")],
        .leaf [("position", .int 3)]]).to_query ticketSchema
      = .ok (.doc [("$or", .list [.doc [("name", .str "1")],
          .doc [("name", .str "2")], .doc [("position", .int 3)]])]) :=
  or_chain_flattening_assoc ticketSchema
    [("name", .str "1")] [("name", .str "2")] [("position", .int 3)]
    [("name", .str "1")] [("name", .str "2")] [("position", .int 3)]
    (by simp [QNode.beq, BVal.dictBeq, BVal.beq])
    (by simp [QNode.beq, BVal.dictBeq, BVal.beq])
    (by simp [QNode.beq, BVal.dictBeq, BVal.beq])
    rfl rfl rfl

end Mongodantic
